import Mathlib

/-!
Verification of the PD_AI wire protocol schema
(src/particle_core/src/wire/PD_AI_wire.h).

The source is a C header defining three packed structures (a 16-byte wire
header `wh16_t`, an 8-byte key-value pair `kv32_t`, a 12-byte budget record
`bud_t`), constant tables (message types, key classes, permission bits,
capability flags, record-id range boundaries) and small macros for
construction, size computation and validation.

The shallow embedding below represents each C `uintN_t` field as a `Nat`
that the construction macros reduce modulo `2^N`, mirroring C's implicit
unsigned conversion in the compound literals. Serialization to the packed
byte layout is modelled explicitly, little-endian, one `Nat` per byte.
-/

namespace PDAIWire

/-- C implicit conversion to `uint8_t`: reduction modulo 2^8. -/
def u8 (x : Nat) : Nat := x % 2^8

/-- C implicit conversion to `uint32_t`: reduction modulo 2^32. -/
def u32 (x : Nat) : Nat := x % 2^32

/-- Wire header `wh16_t`: mt(1) + kc(1) + ann(1) + ver(1) + cap(4) + rid(4) + n(4). -/
structure wh16_t where
  mt : Nat
  kc : Nat
  ann : Nat
  ver : Nat
  cap : Nat
  rid : Nat
  n : Nat
deriving Repr, DecidableEq

/-- Key-value pair `kv32_t`: k(4) + v(4). -/
structure kv32_t where
  k : Nat
  v : Nat
deriving Repr, DecidableEq

/-- Budget record `bud_t`: mode(4) + cap_credits(4) + used_credits(4). -/
structure bud_t where
  mode : Nat
  cap_credits : Nat
  used_credits : Nat
deriving Repr, DecidableEq

-- Message type constants

def M_PING : Nat := 0x00

def M_PONG : Nat := 0x01

def M_UPSERT : Nat := 0x02

def M_QUERY : Nat := 0x03

def M_DELETE : Nat := 0x04

def M_SNAPSHOT : Nat := 0x05

def M_RESTORE : Nat := 0x06

def M_SYNC : Nat := 0x07

-- Key class constants

def K_MCP : Nat := 0x10

def K_AUTH : Nat := 0x20

def K_CONFIG : Nat := 0x30

def K_STATE : Nat := 0x40

def K_SNAPSHOT : Nat := 0x50

def K_METADATA : Nat := 0x60

-- Permission / flag bits

def T_R : Nat := 0x01

def T_W : Nat := 0x02

def T_D : Nat := 0x04

def T_X : Nat := 0x08

def T_SYNC : Nat := 0x10

def T_COMPRESS : Nat := 0x20

def T_ENCRYPT : Nat := 0x40

def T_ARCHIVE : Nat := 0x80

-- Combined patterns

def ANN_MCP : Nat := T_R ||| T_W ||| T_D

def ANN_RO : Nat := T_R

def ANN_RW : Nat := T_R ||| T_W

def ANN_FULL : Nat := T_R ||| T_W ||| T_D ||| T_X

-- Capability flags

def P_TOOLS : Nat := 0x10000000

def P_APPS : Nat := 0x20000000

def P_FILES : Nat := 0x40000000

def P_NETWORK : Nat := 0x80000000

def P_DATABASE : Nat := 0x01000000

def P_COMPUTE : Nat := 0x02000000

def P_MEMORY : Nat := 0x04000000

def P_ADMIN : Nat := 0x08000000

def CAP_STANDARD : Nat := P_TOOLS ||| P_APPS

def CAP_EXTENDED : Nat := P_TOOLS ||| P_APPS ||| P_FILES

def CAP_FULL : Nat := 0xFFFFFFFF

-- Record ID range boundaries

def RID_SYSTEM_MIN : Nat := 0x00000001

def RID_SYSTEM_MAX : Nat := 0x000FFFFF

def RID_USER_MIN : Nat := 0x00100000

def RID_USER_MAX : Nat := 0x0FFFFFFF

def RID_SNAPSHOT_MIN : Nat := 0x10000000

def RID_SNAPSHOT_MAX : Nat := 0x1FFFFFFF

def RID_TEMP_MIN : Nat := 0x20000000

def RID_TEMP_MAX : Nat := 0x2FFFFFFF

/-- The `WH` construction macro: `((wh16_t){mt, kc, ann, 1, cap, rid, n})`.
The compound literal converts each argument to the field type. -/
def WH (mt kc ann cap rid n : Nat) : wh16_t :=
  ⟨u8 mt, u8 kc, u8 ann, u8 1, u32 cap, u32 rid, u32 n⟩

/-- The `KV` construction macro: `((kv32_t){k, v})`. -/
def KV (k v : Nat) : kv32_t := ⟨u32 k, u32 v⟩

/-- The `BUD` construction macro: `((bud_t){mode, cap, used})`. -/
def BUD (mode cap used : Nat) : bud_t := ⟨u32 mode, u32 cap, u32 used⟩

/-- Little-endian bytes of a 32-bit field, as laid out in memory by the
packed struct. -/
def toLE4 (x : Nat) : List Nat :=
  [x % 256, x / 2^8 % 256, x / 2^16 % 256, x / 2^24 % 256]

/-- Reassemble a 32-bit value from four little-endian bytes. -/
def fromLE4 (b0 b1 b2 b3 : Nat) : Nat :=
  b0 + b1 * 2^8 + b2 * 2^16 + b3 * 2^24

/-- Serialize a header to its packed 16-byte layout:
offsets 0..3 are the four 1-byte fields, then cap, rid, n little-endian. -/
def serializeWH (h : wh16_t) : List Nat :=
  [h.mt % 256, h.kc % 256, h.ann % 256, h.ver % 256]
    ++ toLE4 h.cap ++ toLE4 h.rid ++ toLE4 h.n

/-- Serialize a key-value pair to its packed 8-byte layout. -/
def serializeKV (p : kv32_t) : List Nat := toLE4 p.k ++ toLE4 p.v

/-- Serialize a sequence of key-value pairs contiguously. -/
def serializeKVs : List kv32_t → List Nat
  | [] => []
  | p :: ps => serializeKV p ++ serializeKVs ps

/-- Parse a contiguous payload of 8-byte key-value pairs (the test's
`kv32_t *read_kvs = (kv32_t *)(msg + sizeof(wh16_t))` reinterpretation). -/
def parseKVs : List Nat → List kv32_t
  | a0 :: a1 :: a2 :: a3 :: a4 :: a5 :: a6 :: a7 :: rest =>
      ⟨fromLE4 a0 a1 a2 a3, fromLE4 a4 a5 a6 a7⟩ :: parseKVs rest
  | _ => []

/-- Reparse a raw message buffer: the first 16 bytes reinterpreted as a
header (the test's `wh16_t *read_header = (wh16_t *)msg`), the remainder
as the key-value payload. Fails when fewer than 16 bytes are present. -/
def parseMsg : List Nat → Option (wh16_t × List kv32_t)
  | b0 :: b1 :: b2 :: b3 :: b4 :: b5 :: b6 :: b7 ::
    b8 :: b9 :: b10 :: b11 :: b12 :: b13 :: b14 :: b15 :: rest =>
      some (⟨b0, b1, b2, b3, fromLE4 b4 b5 b6 b7,
             fromLE4 b8 b9 b10 b11, fromLE4 b12 b13 b14 b15⟩, parseKVs rest)
  | _ => none

/-- The packed byte size of `wh16_t`, taken from the serializer. -/
def sizeof_wh16 : Nat := (serializeWH (WH 0 0 0 0 0 0)).length

/-- The packed byte size of `kv32_t`, taken from the serializer. -/
def sizeof_kv32 : Nat := (serializeKV (KV 0 0)).length

/-- The `BYTES_KV` macro: `(n) * sizeof(kv32_t)`. -/
def BYTES_KV (n : Nat) : Nat := n * sizeof_kv32

/-- The `MSG_SIZE` macro: `sizeof(wh16_t) + (payload_bytes)`. -/
def MSG_SIZE (payload_bytes : Nat) : Nat := sizeof_wh16 + payload_bytes

/-- The `RID_IS_VALID` macro. -/
def RID_IS_VALID (rid : Nat) : Bool :=
  decide (RID_SYSTEM_MIN ≤ rid ∧ rid ≤ RID_TEMP_MAX)

/-- The `RID_IS_SYSTEM` macro. -/
def RID_IS_SYSTEM (rid : Nat) : Bool :=
  decide (RID_SYSTEM_MIN ≤ rid ∧ rid ≤ RID_SYSTEM_MAX)

/-- The `RID_IS_USER` macro. -/
def RID_IS_USER (rid : Nat) : Bool :=
  decide (RID_USER_MIN ≤ rid ∧ rid ≤ RID_USER_MAX)

/-- The `HAS_READ` macro: `((ann) & T_R) != 0`. -/
def HAS_READ (ann : Nat) : Bool := decide (ann &&& T_R ≠ 0)

/-- The `HAS_WRITE` macro: `((ann) & T_W) != 0`. -/
def HAS_WRITE (ann : Nat) : Bool := decide (ann &&& T_W ≠ 0)

/-- The `HAS_DELETE` macro: `((ann) & T_D) != 0`. -/
def HAS_DELETE (ann : Nat) : Bool := decide (ann &&& T_D ≠ 0)

/-- C 32-bit unsigned subtraction: `a - b` on `uint32_t` operands,
computed modulo 2^32. -/
def usub32 (a b : Nat) : Nat := (a % 2^32 + (2^32 - b % 2^32)) % 2^32

/-- Reassembling the four little-endian bytes of a 32-bit field recovers
the value modulo 2^32. -/
theorem fromLE4_split (x : Nat) :
    fromLE4 (x % 256) (x / 2^8 % 256) (x / 2^16 % 256) (x / 2^24 % 256) = x % 2^32 := by
  unfold fromLE4
  omega

/-- C2: `RID_IS_VALID rid` holds exactly when `rid` lies in the union of the
four ranges SYSTEM, USER, SNAPSHOT, TEMP, equivalently when
`RID_SYSTEM_MIN ≤ rid ≤ RID_TEMP_MAX` (the ranges are contiguous, ordered
and gap-free); and `RID_IS_VALID 0x30000000` is false. -/
theorem rid_is_valid_iff_union (rid : Nat) :
    (RID_IS_VALID rid = true ↔
      ((RID_SYSTEM_MIN ≤ rid ∧ rid ≤ RID_SYSTEM_MAX) ∨
       (RID_USER_MIN ≤ rid ∧ rid ≤ RID_USER_MAX) ∨
       (RID_SNAPSHOT_MIN ≤ rid ∧ rid ≤ RID_SNAPSHOT_MAX) ∨
       (RID_TEMP_MIN ≤ rid ∧ rid ≤ RID_TEMP_MAX))) ∧
    (RID_IS_VALID rid = true ↔ RID_SYSTEM_MIN ≤ rid ∧ rid ≤ RID_TEMP_MAX) ∧
    RID_SYSTEM_MAX + 1 = RID_USER_MIN ∧
    RID_USER_MAX + 1 = RID_SNAPSHOT_MIN ∧
    RID_SNAPSHOT_MAX + 1 = RID_TEMP_MIN ∧
    RID_IS_VALID 0x30000000 = false := by
  refine ⟨?_, ?_, by decide, by decide, by decide, by decide⟩
  all_goals simp only [RID_IS_VALID, RID_SYSTEM_MIN, RID_SYSTEM_MAX,
    RID_USER_MIN, RID_USER_MAX, RID_SNAPSHOT_MIN, RID_SNAPSHOT_MAX,
    RID_TEMP_MIN, RID_TEMP_MAX, decide_eq_true_eq]
  all_goals omega

/-- C3 counterexample: `CAP_FULL` is not a union of the eight capability
flags: masking it to the union of all eight flags changes it, i.e. it
carries bits outside the eight defined capability flags. -/
theorem cap_full_not_flag_union :
    CAP_FULL &&& (P_TOOLS ||| P_APPS ||| P_FILES ||| P_NETWORK |||
      P_DATABASE ||| P_COMPUTE ||| P_MEMORY ||| P_ADMIN) ≠ CAP_FULL ∧
    CAP_FULL &&& 1 = 1 := by
  decide

/-- C3 amended: each of the eight capability flags is a distinct single
bit within 0x01000000–0x80000000, and `CAP_STANDARD` and `CAP_EXTENDED`
are unions of these flags; `CAP_FULL` is 0xFFFFFFFF, which includes all
eight flags but also every bit outside them. -/
theorem cap_flags_structure :
    P_DATABASE = 2^24 ∧ P_COMPUTE = 2^25 ∧ P_MEMORY = 2^26 ∧ P_ADMIN = 2^27 ∧
    P_TOOLS = 2^28 ∧ P_APPS = 2^29 ∧ P_FILES = 2^30 ∧ P_NETWORK = 2^31 ∧
    [P_TOOLS, P_APPS, P_FILES, P_NETWORK,
     P_DATABASE, P_COMPUTE, P_MEMORY, P_ADMIN].Nodup ∧
    CAP_STANDARD = P_TOOLS ||| P_APPS ∧
    CAP_EXTENDED = P_TOOLS ||| P_APPS ||| P_FILES ∧
    CAP_FULL = 0xFFFFFFFF ∧
    CAP_FULL &&& (P_TOOLS ||| P_APPS ||| P_FILES ||| P_NETWORK |||
      P_DATABASE ||| P_COMPUTE ||| P_MEMORY ||| P_ADMIN) =
      (P_TOOLS ||| P_APPS ||| P_FILES ||| P_NETWORK |||
       P_DATABASE ||| P_COMPUTE ||| P_MEMORY ||| P_ADMIN) := by
  decide

/-- C5: the permission predicates behave as specified on `T_R`, `ANN_RW`
and `ANN_FULL`, and `ANN_FULL` includes the execute bit. -/
theorem ann_predicate_values :
    HAS_READ T_R = true ∧ HAS_WRITE T_R = false ∧
    HAS_READ ANN_RW = true ∧ HAS_WRITE ANN_RW = true ∧
    HAS_DELETE ANN_RW = false ∧
    HAS_READ ANN_FULL = true ∧ HAS_WRITE ANN_FULL = true ∧
    HAS_DELETE ANN_FULL = true ∧ ANN_FULL &&& T_X = T_X := by
  decide

/-- C6: `BYTES_KV n = n * 8` and `MSG_SIZE p = 16 + p`, where 8 and 16 are
the exact packed byte sizes produced by the serializers; in particular
`BYTES_KV 3 = 24` and `MSG_SIZE 24 = 40`. -/
theorem size_functions_exact (n p : Nat) :
    BYTES_KV n = n * 8 ∧ MSG_SIZE p = 16 + p ∧
    sizeof_kv32 = 8 ∧ sizeof_wh16 = 16 ∧
    BYTES_KV 3 = 24 ∧ MSG_SIZE 24 = 40 := by
  refine ⟨rfl, rfl, rfl, rfl, rfl, rfl⟩

/-- C7: the four record-id ranges are pairwise disjoint; on the boundary
points, `RID_SYSTEM_MIN` is system but not user and `RID_USER_MIN` is user
but not system. -/
theorem rid_ranges_disjoint (rid : Nat) :
    ¬(RID_IS_SYSTEM rid = true ∧ RID_IS_USER rid = true) ∧
    ¬((RID_SYSTEM_MIN ≤ rid ∧ rid ≤ RID_SYSTEM_MAX) ∧
      (RID_SNAPSHOT_MIN ≤ rid ∧ rid ≤ RID_SNAPSHOT_MAX)) ∧
    ¬((RID_SYSTEM_MIN ≤ rid ∧ rid ≤ RID_SYSTEM_MAX) ∧
      (RID_TEMP_MIN ≤ rid ∧ rid ≤ RID_TEMP_MAX)) ∧
    ¬((RID_USER_MIN ≤ rid ∧ rid ≤ RID_USER_MAX) ∧
      (RID_SNAPSHOT_MIN ≤ rid ∧ rid ≤ RID_SNAPSHOT_MAX)) ∧
    ¬((RID_USER_MIN ≤ rid ∧ rid ≤ RID_USER_MAX) ∧
      (RID_TEMP_MIN ≤ rid ∧ rid ≤ RID_TEMP_MAX)) ∧
    ¬((RID_SNAPSHOT_MIN ≤ rid ∧ rid ≤ RID_SNAPSHOT_MAX) ∧
      (RID_TEMP_MIN ≤ rid ∧ rid ≤ RID_TEMP_MAX)) ∧
    RID_IS_SYSTEM RID_SYSTEM_MIN = true ∧
    RID_IS_USER RID_SYSTEM_MIN = false ∧
    RID_IS_USER RID_USER_MIN = true ∧
    RID_IS_SYSTEM RID_USER_MIN = false := by
  simp only [RID_IS_SYSTEM, RID_IS_USER, RID_SYSTEM_MIN, RID_SYSTEM_MAX,
    RID_USER_MIN, RID_USER_MAX, RID_SNAPSHOT_MIN, RID_SNAPSHOT_MAX,
    RID_TEMP_MIN, RID_TEMP_MAX, decide_eq_true_eq, decide_eq_false_iff_not,
    not_and]
  omega

/-- C9: header construction truncates the three 8-bit arguments modulo
2^8 rather than rejecting oversized values: an argument of 256 is stored
as 0, and 0x1FF is stored as 0xFF. -/
theorem wh_truncates_u8 (mt kc ann cap rid n : Nat) :
    (WH mt kc ann cap rid n).mt = mt % 2^8 ∧
    (WH mt kc ann cap rid n).kc = kc % 2^8 ∧
    (WH mt kc ann cap rid n).ann = ann % 2^8 ∧
    (WH 256 0 0 0 0 0).mt = 0 ∧
    (WH 0x1FF 0 0 0 0 0).mt = 0xFF := by
  refine ⟨rfl, rfl, rfl, rfl, rfl⟩

/-- C1: for in-range arguments (8-bit mt, kc, ann; 32-bit cap, rid, n),
`WH` stores every field unchanged, sets `ver` to 1, and serializes to
exactly 16 bytes; `WH` is total, so construction never fails. -/
theorem wh_construction_exact (mt kc ann cap rid n : Nat)
    (hmt : mt < 2^8) (hkc : kc < 2^8) (hann : ann < 2^8)
    (hcap : cap < 2^32) (hrid : rid < 2^32) (hn : n < 2^32) :
    (WH mt kc ann cap rid n).mt = mt ∧
    (WH mt kc ann cap rid n).kc = kc ∧
    (WH mt kc ann cap rid n).ann = ann ∧
    (WH mt kc ann cap rid n).cap = cap ∧
    (WH mt kc ann cap rid n).rid = rid ∧
    (WH mt kc ann cap rid n).n = n ∧
    (WH mt kc ann cap rid n).ver = 1 ∧
    (serializeWH (WH mt kc ann cap rid n)).length = 16 := by
  simp only [WH, u8, u32]
  refine ⟨Nat.mod_eq_of_lt hmt, Nat.mod_eq_of_lt hkc, Nat.mod_eq_of_lt hann,
    Nat.mod_eq_of_lt hcap, Nat.mod_eq_of_lt hrid, Nat.mod_eq_of_lt hn, rfl, ?_⟩
  simp [serializeWH, toLE4]

/-- Witness for C1 at the concrete header of the assembly test:
`WH(M_UPSERT, K_MCP, ANN_MCP, CAP_STANDARD, RID_USER_MIN, 24)`. -/
theorem wh_construction_exact_witness :
    (2 < 2^8 ∧ 16 < 2^8 ∧ 7 < 2^8 ∧
     0x30000000 < 2^32 ∧ 0x100000 < 2^32 ∧ 24 < 2^32) ∧
    ((WH 2 16 7 0x30000000 0x100000 24).mt = 2 ∧
     (WH 2 16 7 0x30000000 0x100000 24).kc = 16 ∧
     (WH 2 16 7 0x30000000 0x100000 24).ann = 7 ∧
     (WH 2 16 7 0x30000000 0x100000 24).cap = 0x30000000 ∧
     (WH 2 16 7 0x30000000 0x100000 24).rid = 0x100000 ∧
     (WH 2 16 7 0x30000000 0x100000 24).n = 24 ∧
     (WH 2 16 7 0x30000000 0x100000 24).ver = 1 ∧
     (serializeWH (WH 2 16 7 0x30000000 0x100000 24)).length = 16) :=
  ⟨⟨by decide, by decide, by decide, by decide, by decide, by decide⟩,
   wh_construction_exact 2 16 7 0x30000000 0x100000 24
     (by decide) (by decide) (by decide) (by decide) (by decide) (by decide)⟩

/-- C8: when the stored fields of a budget satisfy
`used_credits ≤ cap_credits`, the 32-bit unsigned subtraction
`cap_credits - used_credits` equals the exact natural-number difference
(no wraparound); in particular `BUD 1 1000000 50000` leaves 950000. -/
theorem bud_remaining_exact (mode cap used : Nat)
    (h : (BUD mode cap used).used_credits ≤ (BUD mode cap used).cap_credits) :
    usub32 (BUD mode cap used).cap_credits (BUD mode cap used).used_credits =
      (BUD mode cap used).cap_credits - (BUD mode cap used).used_credits ∧
    usub32 (BUD 1 1000000 50000).cap_credits
      (BUD 1 1000000 50000).used_credits = 950000 := by
  simp only [BUD, u32, usub32] at h ⊢
  omega

/-- Witness for C8 at the test's budget `BUD(1, 1000000, 50000)`. -/
theorem bud_remaining_exact_witness :
    (BUD 1 1000000 50000).used_credits ≤ (BUD 1 1000000 50000).cap_credits ∧
    (usub32 (BUD 1 1000000 50000).cap_credits
        (BUD 1 1000000 50000).used_credits =
      (BUD 1 1000000 50000).cap_credits - (BUD 1 1000000 50000).used_credits ∧
     usub32 (BUD 1 1000000 50000).cap_credits
       (BUD 1 1000000 50000).used_credits = 950000) :=
  ⟨by decide, bud_remaining_exact 1 1000000 50000 (by decide)⟩

/-- C4: assembling the 16 header bytes of
`WH(M_UPSERT, K_MCP, ANN_MCP, CAP_STANDARD, RID_USER_MIN, 24)` followed by
the 24 bytes of three key-value pairs and reparsing the 40-byte buffer
recovers the same header (so `mt = M_UPSERT` and `n = 24`) and the same
three pairs in order. -/
theorem full_message_roundtrip (k1 v1 k2 v2 k3 v3 : Nat)
    (hk1 : k1 < 2^32) (hv1 : v1 < 2^32) (hk2 : k2 < 2^32)
    (hv2 : v2 < 2^32) (hk3 : k3 < 2^32) (hv3 : v3 < 2^32) :
    parseMsg (serializeWH
        (WH M_UPSERT K_MCP ANN_MCP CAP_STANDARD RID_USER_MIN (BYTES_KV 3))
        ++ serializeKVs [KV k1 v1, KV k2 v2, KV k3 v3]) =
      some (WH M_UPSERT K_MCP ANN_MCP CAP_STANDARD RID_USER_MIN (BYTES_KV 3),
            [KV k1 v1, KV k2 v2, KV k3 v3]) ∧
    (WH M_UPSERT K_MCP ANN_MCP CAP_STANDARD RID_USER_MIN (BYTES_KV 3)).mt
      = M_UPSERT ∧
    (WH M_UPSERT K_MCP ANN_MCP CAP_STANDARD RID_USER_MIN (BYTES_KV 3)).n
      = 24 := by
  have e1 := Nat.mod_eq_of_lt hk1
  have e2 := Nat.mod_eq_of_lt hv1
  have e3 := Nat.mod_eq_of_lt hk2
  have e4 := Nat.mod_eq_of_lt hv2
  have e5 := Nat.mod_eq_of_lt hk3
  have e6 := Nat.mod_eq_of_lt hv3
  refine ⟨?_, rfl, rfl⟩
  have hann : ANN_MCP = 7 := by decide
  have hcap : CAP_STANDARD = 805306368 := by decide
  have hbytes : BYTES_KV 3 = 24 := by decide
  simp only [hann, hcap, hbytes, M_UPSERT, K_MCP, RID_USER_MIN,
    serializeWH, serializeKVs, serializeKV, toLE4, fromLE4,
    parseMsg, parseKVs, WH, KV, u8, u32,
    List.cons_append, List.nil_append,
    e1, e2, e3, e4, e5, e6,
    Option.some.injEq, Prod.mk.injEq, List.cons.injEq,
    wh16_t.mk.injEq, kv32_t.mk.injEq, and_true, true_and]
  omega

/-- Witness for C4 at the test's three pairs
(0x1001, 0x2002), (0x3003, 0x4004), (0x5005, 0x6006). -/
theorem full_message_roundtrip_witness :
    (0x1001 < 2^32 ∧ 0x2002 < 2^32 ∧ 0x3003 < 2^32 ∧
     0x4004 < 2^32 ∧ 0x5005 < 2^32 ∧ 0x6006 < 2^32) ∧
    (parseMsg (serializeWH
        (WH M_UPSERT K_MCP ANN_MCP CAP_STANDARD RID_USER_MIN (BYTES_KV 3))
        ++ serializeKVs [KV 0x1001 0x2002, KV 0x3003 0x4004,
                         KV 0x5005 0x6006]) =
      some (WH M_UPSERT K_MCP ANN_MCP CAP_STANDARD RID_USER_MIN (BYTES_KV 3),
            [KV 0x1001 0x2002, KV 0x3003 0x4004, KV 0x5005 0x6006]) ∧
     (WH M_UPSERT K_MCP ANN_MCP CAP_STANDARD RID_USER_MIN (BYTES_KV 3)).mt
       = M_UPSERT ∧
     (WH M_UPSERT K_MCP ANN_MCP CAP_STANDARD RID_USER_MIN (BYTES_KV 3)).n
       = 24) :=
  ⟨⟨by decide, by decide, by decide, by decide, by decide, by decide⟩,
   full_message_roundtrip 0x1001 0x2002 0x3003 0x4004 0x5005 0x6006
     (by decide) (by decide) (by decide) (by decide) (by decide) (by decide)⟩

/-- C10: `ANN_FULL` is exactly `T_R | T_W | T_D | T_X = 0x0F` and carries
none of the four feature flags T_SYNC, T_COMPRESS, T_ENCRYPT, T_ARCHIVE. -/
theorem ann_full_no_feature_flags :
    ANN_FULL = 0x0F ∧ ANN_FULL = (T_R ||| T_W ||| T_D ||| T_X) ∧
    ANN_FULL &&& T_SYNC = 0 ∧ ANN_FULL &&& T_COMPRESS = 0 ∧
    ANN_FULL &&& T_ENCRYPT = 0 ∧ ANN_FULL &&& T_ARCHIVE = 0 := by
  decide

end PDAIWire
